import Mathlib

/-!
Verification of the torchgeometry affine-augmentation module
(`torchgeometry/augmentation/affine.py`) against its specification.

Scalars are modelled as rationals, tensors of matrices as lists of
explicit 3x3 / 2x3 matrix structures (one list element per batch
element).  The process-wide random source is modelled as an oracle
`rng : Nat → ℚ` supplying the successive uniform draws.  Python
exceptions are modelled by the `PyErr` type; a function that can raise
returns `Except PyErr _`.  The external collaborators
`get_rotation_matrix2d` and `warp_affine` are not part of the source
module and are modelled from the specification (see their doc comments).
-/

/-- Python exception kinds raised by the module (TypeError, ValueError,
RuntimeError, IndexError, AssertionError) plus the spec's ShapeError-kind
attributed to the external collaborator. -/
inductive PyErr where
  | typeError
  | valueError
  | runtimeError
  | indexError
  | assertionError
  | shapeError
  deriving DecidableEq, Repr

/-- A 3x3 matrix over ℚ, row major: entry `aij` is row i, column j. -/
structure Mat3 where
  a00 : ℚ
  a01 : ℚ
  a02 : ℚ
  a10 : ℚ
  a11 : ℚ
  a12 : ℚ
  a20 : ℚ
  a21 : ℚ
  a22 : ℚ
  deriving DecidableEq, Repr

/-- A 2x3 matrix over ℚ (an affine matrix in the spec's data model). -/
structure Mat23 where
  b00 : ℚ
  b01 : ℚ
  b02 : ℚ
  b10 : ℚ
  b11 : ℚ
  b12 : ℚ
  deriving DecidableEq, Repr

/-- A point in homogeneous coordinates. -/
structure Vec3 where
  x : ℚ
  y : ℚ
  z : ℚ
  deriving DecidableEq, Repr

namespace Mat3

/-- Row-by-column product of two 3x3 matrices. -/
def mul (m n : Mat3) : Mat3 where
  a00 := m.a00 * n.a00 + m.a01 * n.a10 + m.a02 * n.a20
  a01 := m.a00 * n.a01 + m.a01 * n.a11 + m.a02 * n.a21
  a02 := m.a00 * n.a02 + m.a01 * n.a12 + m.a02 * n.a22
  a10 := m.a10 * n.a00 + m.a11 * n.a10 + m.a12 * n.a20
  a11 := m.a10 * n.a01 + m.a11 * n.a11 + m.a12 * n.a21
  a12 := m.a10 * n.a02 + m.a11 * n.a12 + m.a12 * n.a22
  a20 := m.a20 * n.a00 + m.a21 * n.a10 + m.a22 * n.a20
  a21 := m.a20 * n.a01 + m.a21 * n.a11 + m.a22 * n.a21
  a22 := m.a20 * n.a02 + m.a21 * n.a12 + m.a22 * n.a22

instance : Mul Mat3 := ⟨Mat3.mul⟩

/-- Matrix-vector product with a homogeneous point. -/
def mulVec (m : Mat3) (v : Vec3) : Vec3 where
  x := m.a00 * v.x + m.a01 * v.y + m.a02 * v.z
  y := m.a10 * v.x + m.a11 * v.y + m.a12 * v.z
  z := m.a20 * v.x + m.a21 * v.y + m.a22 * v.z

/-- The top-left 2x3 submatrix `matrix[..., :2, :3]`. -/
def topLeft23 (m : Mat3) : Mat23 :=
  ⟨m.a00, m.a01, m.a02, m.a10, m.a11, m.a12⟩

end Mat3

/-- `identity_matrix()`: the 3x3 identity (the source returns it with a
leading batch dimension of 1; batching is explicit in our lists). -/
def identity_matrix : Mat3 :=
  ⟨1, 0, 0, 0, 1, 0, 0, 0, 1⟩

/-- `convert_matrix2d_to_homogeneous(matrix)`: pad the last two
dimensions with a zero row, then add 1 at the bottom-right entry. -/
def convert_matrix2d_to_homogeneous (m : Mat23) : Mat3 :=
  ⟨m.b00, m.b01, m.b02, m.b10, m.b11, m.b12, 0, 0, 0 + 1⟩

/-- `translation_matrix(translation)`: the identity repeated once per
batch element, with `dx` added to entry (0,2) and `dy` to entry (1,2)
of each copy.  A batch element is a `(dx, dy)` pair. -/
def translation_matrix (translation : List (ℚ × ℚ)) : List Mat3 :=
  translation.map fun p =>
    { identity_matrix with
        a02 := identity_matrix.a02 + p.1
        a12 := identity_matrix.a12 + p.2 }

/-- Modelled from the spec: `get_rotation_matrix2d(center, angle, scale)`
is an external collaborator (spec section 6, "builds a similarity
rotation matrix about an arbitrary center"; not part of this source
module).  The spec fixes only its batch contract: one 2x3 matrix per
batch element, and a ShapeError-kind failure when the center and angle
batch sizes differ (spec section 4.1).  The numeric entries are not
specified, so they are taken from an arbitrary entry function passed as
the parameter `entry`. -/
def get_rotation_matrix2d (entry : (ℚ × ℚ) → ℚ → ℚ → Mat23)
    (center : List (ℚ × ℚ)) (angle scale : List ℚ) :
    Except PyErr (List Mat23) :=
  if center.length = angle.length then
    .ok ((center.zip (angle.zip scale)).map fun c => entry c.1 c.2.1 c.2.2)
  else
    .error .shapeError

/-- `rotation_matrix(angle, center)`: scale is `ones_like(angle)`; build
the 2x3 batch via the external `get_rotation_matrix2d`, then homogenize
each matrix. -/
def rotation_matrix (entry : (ℚ × ℚ) → ℚ → ℚ → Mat23)
    (angle : List ℚ) (center : List (ℚ × ℚ)) : Except PyErr (List Mat3) :=
  let scale : List ℚ := angle.map fun _ => 1
  (get_rotation_matrix2d entry center angle scale).map
    (List.map convert_matrix2d_to_homogeneous)

/-- Batched `torch.matmul` on two batches of 3x3 matrices: elementwise
product when the batch sizes agree, broadcast when either batch has
size 1, and a shape failure otherwise. -/
def bmatmul (as_ bs : List Mat3) : Except PyErr (List Mat3) :=
  if as_.length = bs.length then
    .ok (List.zipWith (fun a b => a * b) as_ bs)
  else
    match as_, bs with
    | [a], _ => .ok (bs.map fun b => a * b)
    | _, [b] => .ok (as_.map fun a => a * b)
    | _, _ => .error .shapeError

/-- A torch tensor at the level of detail the constructors inspect:
its shape and its flat list of scalar entries. -/
structure PyTensor where
  shape : List Nat
  data : List ℚ
  deriving DecidableEq, Repr

/-- The shared body of every wrapper's `affine()` method:
`assert self.matrix is not None; return self.matrix[..., :2, :3]`. -/
def affineSlot (m : Option (List Mat3)) : Except PyErr (List Mat23) :=
  match m with
  | none => .error .assertionError
  | some ms => .ok (ms.map Mat3.topLeft23)

/-- The `TranslationMatrix` wrapper: parameters plus the cached matrix
slot (`None` encodes a not-yet-generated matrix). -/
structure TranslationMatrix where
  translation : List (ℚ × ℚ)
  matrix : Option (List Mat3)
  deriving DecidableEq, Repr

/-- `TranslationMatrix.__init__`: stores the translation and eagerly
generates the matrix via `_generate_matrix`. -/
def TranslationMatrix.init (translation : List (ℚ × ℚ)) : TranslationMatrix :=
  ⟨translation, some (translation_matrix translation)⟩

/-- `TranslationMatrix.affine`. -/
def TranslationMatrix.affine (st : TranslationMatrix) : Except PyErr (List Mat23) :=
  affineSlot st.matrix

/-- `TranslationMatrix.forward(input)`: asserts the matrix slot is
filled, then returns `torch.matmul(self.matrix, input)` — the stored
matrix on the left. -/
def TranslationMatrix.forward (st : TranslationMatrix) (input : List Mat3) :
    Except PyErr (List Mat3) :=
  match st.matrix with
  | none => .error .assertionError
  | some ms => bmatmul ms input

/-- The deterministic `RotationMatrix` wrapper. -/
structure RotationMatrix where
  angle : List ℚ
  center : List (ℚ × ℚ)
  matrix : Option (List Mat3)
  deriving DecidableEq, Repr

/-- `RotationMatrix.__init__`: eagerly generates the matrix; an
exception escaping `rotation_matrix` propagates out of the
constructor. -/
def RotationMatrix.init (entry : (ℚ × ℚ) → ℚ → ℚ → Mat23)
    (angle : List ℚ) (center : List (ℚ × ℚ)) : Except PyErr RotationMatrix :=
  (rotation_matrix entry angle center).map fun ms => ⟨angle, center, some ms⟩

/-- `RotationMatrix.affine`. -/
def RotationMatrix.affine (st : RotationMatrix) : Except PyErr (List Mat23) :=
  affineSlot st.matrix

/-- `RotationMatrix.forward(input)`: `torch.matmul(self.matrix, input)`,
the stored matrix on the left. -/
def RotationMatrix.forward (st : RotationMatrix) (input : List Mat3) :
    Except PyErr (List Mat3) :=
  match st.matrix with
  | none => .error .assertionError
  | some ms => bmatmul ms input

/-- The `RandomRotationMatrix` wrapper.  `degrees` is the stored range
tensor, `angle` and `matrix` start out as `None`. -/
structure RandomRotationMatrix where
  degrees : PyTensor
  center : Option (List (ℚ × ℚ))
  angle : Option (List ℚ)
  matrix : Option (List Mat3)
  deriving DecidableEq, Repr

/-- `RandomRotationMatrix.__init__`.  A rank-1 `degrees` is treated as a
scalar bound: `bool(degrees < 0)` demands exactly one element (a
RuntimeError-kind failure otherwise), a negative bound is a ValueError,
and the stored range is `torch.cat([-degrees, degrees])`.  Any other
rank raises ValueError unless it is exactly 2, in which case `degrees`
is stored as given. -/
def RandomRotationMatrix.init (degrees : PyTensor)
    (center : Option (List (ℚ × ℚ))) : Except PyErr RandomRotationMatrix :=
  if degrees.shape.length = 1 then
    match degrees.data with
    | [d] =>
      if d < 0 then .error .valueError
      else .ok ⟨⟨[2], [-d, d]⟩, center, none, none⟩
    | _ => .error .runtimeError
  else if degrees.shape.length ≠ 2 then .error .valueError
  else .ok ⟨degrees, center, none, none⟩

/-- `RandomRotationMatrix._generate_params(num_samples)`:
`torch.tensor([float(num_samples)])` is a ONE-element tensor holding the
value `num_samples`; `.uniform_(degrees[0], degrees[1])` then overwrites
each element in place with a fresh draw from the process-wide random
source (modelled by the oracle `rng`).  Reading `degrees[0]`/`degrees[1]`
as floats requires the stored `degrees` to be rank 1 with at least two
entries (a nested `tolist()` makes `uniform_` fail, a short one indexes
out of range). -/
def RandomRotationMatrix.generate_params (st : RandomRotationMatrix)
    (num_samples : Nat) (rng : Nat → ℚ) : Except PyErr (List ℚ) :=
  if st.degrees.shape.length ≠ 1 then .error .typeError
  else if st.degrees.data.length < 2 then .error .indexError
  else
    let t : List ℚ := [((num_samples : ℚ))]
    .ok ((List.range t.length).map fun i => rng i)

/-- `RandomRotationMatrix.forward(input)`: the input is a rank-3
`(B, 3, 3)` batch (the source asserts `len(input.shape) == 3`, which
holds by construction here), then asserts the center is present, sets
`self.angle` and `self.matrix` via `_generate_matrix(B)`, and returns
`torch.matmul(input, self.matrix)` — the INPUT on the left. -/
def RandomRotationMatrix.forward (entry : (ℚ × ℚ) → ℚ → ℚ → Mat23)
    (st : RandomRotationMatrix) (input : List Mat3) (rng : Nat → ℚ) :
    RandomRotationMatrix × Except PyErr (List Mat3) :=
  match st.center with
  | none => (st, .error .assertionError)
  | some c =>
    match st.generate_params input.length rng with
    | .error e => (st, .error e)
    | .ok angle =>
      let st1 := { st with angle := some angle }
      match rotation_matrix entry angle c with
      | .error e => (st1, .error e)
      | .ok ms =>
        let st2 := { st1 with matrix := some ms }
        match bmatmul input ms with
        | .error e => (st2, .error e)
        | .ok out => (st2, .ok out)

/-- The value held in `RandomTranslationMatrix.translation`: the
configured `[lo, hi]` range right after construction, or the sampled
`(B, 2)` batch that `_generate_matrix` overwrites it with. -/
inductive RTMTranslation where
  | range (lo hi : ℚ)
  | sampled (v : List (ℚ × ℚ))
  deriving DecidableEq, Repr

/-- The `RandomTranslationMatrix` wrapper. -/
structure RandomTranslationMatrix where
  translation : RTMTranslation
  matrix : Option (List Mat3)
  deriving DecidableEq, Repr

/-- `RandomTranslationMatrix.__init__`: the argument must be rank 1; a
single element `t` configures the range `[-t, t]`, two elements are the
explicit `[lo, hi]`, anything else is a ValueError. -/
def RandomTranslationMatrix.init (translation : PyTensor) :
    Except PyErr RandomTranslationMatrix :=
  if translation.shape.length ≠ 1 then .error .valueError
  else
    match translation.data with
    | [t] => .ok ⟨.range (-t) t, none⟩
    | [lo, hi] => .ok ⟨.range lo hi, none⟩
    | _ => .error .valueError

/-- `RandomTranslationMatrix._generate_params(num_samples)`:
`torch.zeros(num_samples, 2).uniform_(lo, hi)` draws one fresh value per
element, i.e. a `(dx, dy)` pair per batch element (oracle draws
`rng (2*i)` and `rng (2*i+1)` for element `i`).  After a previous
forward call `self.translation` holds the sampled `(B, 2)` batch, whose
nested `tolist()` makes `uniform_` fail. -/
def RandomTranslationMatrix.generate_params (st : RandomTranslationMatrix)
    (num_samples : Nat) (rng : Nat → ℚ) : Except PyErr (List (ℚ × ℚ)) :=
  match st.translation with
  | .range _ _ =>
    .ok ((List.range num_samples).map fun i => (rng (2 * i), rng (2 * i + 1)))
  | .sampled _ => .error .typeError

/-- `RandomTranslationMatrix.forward(input)`: rank-3 input by
construction, samples `B` translation pairs, overwrites
`self.translation` with them, stores `translation_matrix` of them in
`self.matrix`, and returns `torch.matmul(input, self.matrix)` — the
INPUT on the left. -/
def RandomTranslationMatrix.forward (st : RandomTranslationMatrix)
    (input : List Mat3) (rng : Nat → ℚ) :
    RandomTranslationMatrix × Except PyErr (List Mat3) :=
  match st.generate_params input.length rng with
  | .error e => (st, .error e)
  | .ok tr =>
    let ms := translation_matrix tr
    let st2 : RandomTranslationMatrix := ⟨.sampled tr, some ms⟩
    match bmatmul input ms with
    | .error e => (st2, .error e)
    | .ok out => (st2, .ok out)

/-- `RandomRotationMatrix.affine`. -/
def RandomRotationMatrix.affine (st : RandomRotationMatrix) :
    Except PyErr (List Mat23) :=
  affineSlot st.matrix

/-- `RandomTranslationMatrix.affine`. -/
def RandomTranslationMatrix.affine (st : RandomTranslationMatrix) :
    Except PyErr (List Mat23) :=
  affineSlot st.matrix

/-- The argument-validation prefix of `rotate(tensor, angle, center)`,
exactly as written in the source: tensor and angle must be tensors; the
third check — meant for `center` — re-tests `angle` because of the
copy-paste in the source (`center is not None and not
torch.is_tensor(angle)`); the tensor rank must be 3 or 4; a rank-3
tensor demands a rank-1 angle, a rank-4 tensor demands
`tensor.shape[0] == angle.shape[0]` (indexing an empty angle shape is an
IndexError).  Returns the first exception raised, or `none`. -/
def rotateValidate (tensor_is_tensor : Bool) (tensor_shape : List Nat)
    (angle_is_tensor : Bool) (angle_shape : List Nat)
    (center_present : Bool) (center_is_tensor : Bool) : Option PyErr :=
  if ¬ tensor_is_tensor then some .typeError
  else if ¬ angle_is_tensor then some .typeError
  else if center_present ∧ ¬ angle_is_tensor then some .typeError
  else if ¬ (tensor_shape.length = 3 ∨ tensor_shape.length = 4) then
    some .valueError
  else if tensor_shape.length = 3 ∧ angle_shape.length ≠ 1 then
    some .valueError
  else if tensor_shape.length = 4 then
    match tensor_shape, angle_shape with
    | tb :: _, ab :: _ => if tb ≠ ab then some .valueError else none
    | _, [] => some .indexError
    | _, _ => none
  else none

/-- `tensor.shape[-2:]` as an `(H, W)` pair (total: shapes of rank
below 2 give a dummy value, never reached at the call sites). -/
def spatial_size (shape : List Nat) : Nat × Nat :=
  match shape.drop (shape.length - 2) with
  | [h, w] => (h, w)
  | _ => (0, 0)

/-- Modelled from the spec: `warp_affine(image_batch, matrix, dsize)` is
an external collaborator (spec section 6; not part of this source
module).  The spec fixes its shape contract: it resamples the `(B, C, H,
W)` input to the given output size, keeping dtype and channel count, so
the output shape is `(B, C, dsize.1, dsize.2)`. -/
def warp_affine_shape (shape : List Nat) (dsize : Nat × Nat) : List Nat :=
  shape.take 2 ++ [dsize.1, dsize.2]

/-- `torch.squeeze(·, dim=0)`: drops the leading dimension only when it
has size 1. -/
def squeeze0 : List Nat → List Nat
  | 1 :: rest => rest
  | l => l

/-- The shape behaviour of `affine(tensor, matrix)`: a rank-3 tensor is
unsqueezed to `(1, C, H, W)`, the warp primitive is invoked with output
size `tensor.shape[-2:]`, and the result is squeezed back. -/
def affine_shape (tensor_shape : List Nat) : List Nat :=
  let is_unbatched := tensor_shape.length = 3
  let t := if is_unbatched then 1 :: tensor_shape else tensor_shape
  let warped := warp_affine_shape t (spatial_size t)
  if is_unbatched then squeeze0 warped else warped

/-- The output size `affine` passes to the warp primitive. -/
def affine_dsize (tensor_shape : List Nat) : Nat × Nat :=
  spatial_size (if tensor_shape.length = 3 then 1 :: tensor_shape else tensor_shape)

/-- A concrete entry function for the spec-modelled
`get_rotation_matrix2d`, used to instantiate universally quantified
statements. -/
def entryC : (ℚ × ℚ) → ℚ → ℚ → Mat23 := fun _ _ _ => ⟨1, 0, 0, 0, 1, 0⟩

/-- A concrete random oracle: the first draw is 1, all later draws 0. -/
def rng01 : Nat → ℚ := fun i => if i = 0 then 1 else 0

/-- A concrete input matrix used in counterexamples. -/
def xC : Mat3 := ⟨1, 0, 0, 0, 0, 0, 0, 0, 0⟩

/-- The translation matrix for `(dx, dy) = (1, 0)`. -/
def tC : Mat3 := ⟨1, 0, 1, 0, 1, 0, 0, 0, 1⟩

theorem Mat3.mul_def (m n : Mat3) : m * n = Mat3.mul m n := rfl

theorem bmatmul_eq_length (as_ bs : List Mat3) (h : as_.length = bs.length) :
    bmatmul as_ bs = .ok (List.zipWith (fun a b => a * b) as_ bs) := by
  unfold bmatmul
  rw [if_pos h]

theorem bmatmul_singleton (as_ : List Mat3) (b : Mat3) :
    bmatmul as_ [b] = .ok (as_.map fun a => a * b) := by
  match as_ with
  | [] => rfl
  | [a] => rfl
  | a1 :: a2 :: tl => rfl

theorem rotation_matrix_ok_length (entry : (ℚ × ℚ) → ℚ → ℚ → Mat23)
    (a : List ℚ) (c : List (ℚ × ℚ)) (ms : List Mat3)
    (h : rotation_matrix entry a c = .ok ms) : ms.length = a.length := by
  simp only [rotation_matrix, get_rotation_matrix2d, Except.map] at h
  split_ifs at h with hc
  injection h with h
  subst h
  simp [hc]

/-- Claim C1: the claim says each apply call samples one angle per input
batch element (an angle tensor of exactly B elements).  In the code,
`_generate_params` builds `torch.tensor([float(num_samples)])` — a
ONE-element tensor whose value is the batch size — and fills it in
place, so every accepted call yields an angle list of length 1,
whatever the requested number of samples. -/
theorem rrm_one_angle (st : RandomRotationMatrix) (n : Nat) (rng : Nat → ℚ)
    (l : List ℚ) (h : st.generate_params n rng = .ok l) : l.length = 1 := by
  unfold RandomRotationMatrix.generate_params at h
  split_ifs at h
  injection h with h
  subst h
  simp

/-- Witness for C1: a concrete state with range [-10, 10] asked for 2
samples produces the single angle [1]. -/
theorem rrm_one_angle_witness : ([(1 : ℚ)]).length = 1 :=
  rrm_one_angle ⟨⟨[2], [-10, 10]⟩, none, none, none⟩ 2 rng01 [1]
    (by norm_num [RandomRotationMatrix.generate_params, List.range_succ, rng01])

/-- Claim C2: the claim says rotate raises a TypeError when the center
argument is present but not a tensor.  In the code the center branch
re-tests `angle` (copy-paste bug), so the validation result never
depends on the center at all, and a call with tensor-typed tensor and
angle but a non-tensor center passes validation with no exception. -/
theorem rotate_center_type_unchecked :
    (∀ ts as_ cp ct cp2 ct2, rotateValidate true ts true as_ cp ct =
        rotateValidate true ts true as_ cp2 ct2) ∧
    rotateValidate true [1, 2, 2] true [1] true false = none := by
  constructor
  · intro ts as_ cp ct cp2 ct2
    simp [rotateValidate]
  · decide

/-- Claim C3, counterexample: a RandomTranslationMatrix whose forward
call samples the translation (1, 0) stores the matrix
`translation_matrix [(1, 0)] = [tC]` but returns `[xC * tC]` — input
times stored matrix — and `xC * tC ≠ tC * xC`, so the result is not the
claimed stored-matrix-times-input product. -/
theorem rtm_apply_multiplies_input_on_left :
    (RandomTranslationMatrix.forward ⟨.range (-1) 1, none⟩ [xC] rng01).1.matrix
        = some [tC] ∧
    (RandomTranslationMatrix.forward ⟨.range (-1) 1, none⟩ [xC] rng01).2
        = .ok [xC * tC] ∧
    xC * tC ≠ tC * xC := by
  refine ⟨?_, ?_, ?_⟩
  · norm_num [RandomTranslationMatrix.forward, RandomTranslationMatrix.generate_params,
      translation_matrix, bmatmul, identity_matrix, rng01, tC, List.range_succ]
  · norm_num [RandomTranslationMatrix.forward, RandomTranslationMatrix.generate_params,
      translation_matrix, bmatmul, identity_matrix, rng01, tC, xC,
      Mat3.mul_def, Mat3.mul, List.range_succ]
  · norm_num [Mat3.mul_def, Mat3.mul, xC, tC, Mat3.mk.injEq]

/-- Claim C3, amended: the deterministic wrappers (TranslationMatrix,
RotationMatrix) return the batched product stored-matrix times input;
the random wrappers (RandomTranslationMatrix, RandomRotationMatrix)
return input times regenerated stored matrix. -/
theorem wrapper_apply_mul_spec :
    (∀ t input, input.length = t.length →
      (TranslationMatrix.init t).forward input =
        .ok (List.zipWith (fun m x => m * x) (translation_matrix t) input)) ∧
    (∀ entry a c st input, RotationMatrix.init entry a c = .ok st →
      input.length = a.length →
      ∃ ms, st.matrix = some ms ∧
        st.forward input = .ok (List.zipWith (fun m x => m * x) ms input)) ∧
    (∀ st input rng st2 out,
      RandomTranslationMatrix.forward st input rng = (st2, .ok out) →
      ∃ ms, st2.matrix = some ms ∧
        out = List.zipWith (fun x m => x * m) input ms) ∧
    (∀ entry st input rng st2 out,
      RandomRotationMatrix.forward entry st input rng = (st2, .ok out) →
      ∃ m, st2.matrix = some [m] ∧ out = input.map (fun x => x * m)) := by
  refine ⟨?_, ?_, ?_, ?_⟩
  · intro t input h
    show bmatmul (translation_matrix t) input = _
    rw [bmatmul_eq_length]
    simp [translation_matrix, h]
  · intro entry a c st input hi h
    unfold RotationMatrix.init at hi
    cases hr : rotation_matrix entry a c with
    | error e =>
      rw [hr] at hi
      exact Except.noConfusion hi
    | ok ms =>
      rw [hr] at hi
      simp only [Except.map] at hi
      injection hi with hi
      subst hi
      refine ⟨ms, rfl, ?_⟩
      show bmatmul ms input = _
      rw [bmatmul_eq_length]
      rw [rotation_matrix_ok_length entry a c ms hr, h]
  · intro st input rng st2 out h
    unfold RandomTranslationMatrix.forward at h
    cases hg : st.generate_params input.length rng with
    | error e =>
      rw [hg] at h
      injection h with h1 h2
      exact Except.noConfusion h2
    | ok tr =>
      rw [hg] at h
      dsimp only at h
      have htr : tr.length = input.length := by
        unfold RandomTranslationMatrix.generate_params at hg
        split at hg
        · injection hg with hg
          subst hg
          simp
        · exact Except.noConfusion hg
      rw [bmatmul_eq_length input (translation_matrix tr)
        (by simp [translation_matrix, htr])] at h
      dsimp only at h
      injection h with h1 h2
      injection h2 with h2
      subst h2
      exact ⟨translation_matrix tr, by rw [← h1], rfl⟩
  · intro entry st input rng st2 out h
    unfold RandomRotationMatrix.forward at h
    cases hc : st.center with
    | none =>
      rw [hc] at h
      injection h with h1 h2
      exact Except.noConfusion h2
    | some c =>
      rw [hc] at h
      cases hg : st.generate_params input.length rng with
      | error e =>
        rw [hg] at h
        injection h with h1 h2
        exact Except.noConfusion h2
      | ok angle =>
        rw [hg] at h
        have hangle : angle = [rng 0] := by
          unfold RandomRotationMatrix.generate_params at hg
          split_ifs at hg
          injection hg with hg
          subst hg
          simp [List.range_succ]
        subst hangle
        dsimp only at h
        cases hr : rotation_matrix entry [rng 0] c with
        | error e =>
          rw [hr] at h
          dsimp only at h
          injection h with h1 h2
          exact Except.noConfusion h2
        | ok ms =>
          rw [hr] at h
          dsimp only at h
          have hms : ms.length = 1 := by
            simpa using rotation_matrix_ok_length entry [rng 0] c ms hr
          match ms, hms with
          | [m], _ =>
            rw [bmatmul_singleton] at h
            dsimp only at h
            injection h with h1 h2
            injection h2 with h2
            subst h2
            exact ⟨m, by rw [← h1], rfl⟩

/-- Witness for the amended C3: a concrete deterministic translation
wrapper multiplied against a singleton batch. -/
theorem wrapper_apply_mul_spec_witness :
    (TranslationMatrix.init [((2 : ℚ), 3)]).forward [identity_matrix] =
      .ok (List.zipWith (fun m x => m * x)
        (translation_matrix [((2 : ℚ), 3)]) [identity_matrix]) :=
  wrapper_apply_mul_spec.1 [((2 : ℚ), 3)] [identity_matrix] rfl

/-- Claim C4: the claim says ValueError is raised exactly for a negative
scalar bound or a sequence not of length 2.  In the code the branches
test the tensor RANK: a 1-D `[lo, hi]` pair lands in the scalar branch,
where `bool(degrees < 0)` on a two-element tensor is a RuntimeError-kind
failure, and a rank-2 tensor of any size (here with 3 entries) is
accepted without any ValueError. -/
theorem rrm_init_degrees_bug :
    RandomRotationMatrix.init ⟨[2], [5, 10]⟩ none = .error .runtimeError ∧
    RandomRotationMatrix.init ⟨[1, 3], [0, 1, 2]⟩ none =
      .ok ⟨⟨[1, 3], [0, 1, 2]⟩, none, none, none⟩ := by
  constructor <;> simp [RandomRotationMatrix.init]

/-- Claim C5: for every angle batch and center batch whose batch sizes
differ, `rotation_matrix` fails with the shape error of the
spec-modelled `get_rotation_matrix2d`. -/
theorem rotation_matrix_batch_mismatch (entry : (ℚ × ℚ) → ℚ → ℚ → Mat23)
    (angle : List ℚ) (center : List (ℚ × ℚ))
    (h : angle.length ≠ center.length) :
    rotation_matrix entry angle center = .error .shapeError := by
  simp only [rotation_matrix, get_rotation_matrix2d]
  rw [if_neg (fun hc => h hc.symm)]
  rfl

/-- Witness for C5: a 2-angle batch against a 1-center batch fails. -/
theorem rotation_matrix_batch_mismatch_witness :
    rotation_matrix entryC [1, 2] [(0, 0)] = .error .shapeError :=
  rotation_matrix_batch_mismatch entryC [1, 2] [(0, 0)] (by decide)

/-- Claim C6, amended: with tensor-typed arguments and a non-empty angle
shape, rotate's argument validation raises a shape error exactly when
the tensor rank is neither 3 nor 4, or the tensor is rank 4 and the
batch sizes differ, or the tensor is rank 3 and the angle is not RANK 1
(the element count of a rank-1 angle is not checked); otherwise the
validation raises nothing. -/
theorem rotate_validation_shape_spec (ts as_ : List Nat) (cp ct : Bool)
    (ha : as_ ≠ []) :
    (rotateValidate true ts true as_ cp ct = some .valueError ↔
      ((ts.length ≠ 3 ∧ ts.length ≠ 4) ∨
       (ts.length = 3 ∧ as_.length ≠ 1) ∨
       (ts.length = 4 ∧ ts.headI ≠ as_.headI))) ∧
    (¬ ((ts.length ≠ 3 ∧ ts.length ≠ 4) ∨
        (ts.length = 3 ∧ as_.length ≠ 1) ∨
        (ts.length = 4 ∧ ts.headI ≠ as_.headI)) →
      rotateValidate true ts true as_ cp ct = none) := by
  rcases as_ with _ | ⟨ab, as2⟩
  · exact absurd rfl ha
  by_cases h3 : ts.length = 3
  · have h4 : ts.length ≠ 4 := by omega
    by_cases hl : as2.length = 0
    · simp [rotateValidate, h3, h4, hl]
    · simp [rotateValidate, h3, h4, hl]
  · by_cases h4 : ts.length = 4
    · rcases ts with _ | ⟨tb, ts2⟩
      · simp at h4
      have h2 : ts2.length = 3 := by simpa using h4
      by_cases he : tb = ab
      · subst he
        simp [rotateValidate, h2]
      · simp [rotateValidate, h2, he]
    · simp [rotateValidate, h3, h4]

/-- Witness for the amended C6: a rank-4 tensor of batch 2 against a
1-element angle raises the shape error. -/
theorem rotate_validation_shape_spec_witness :
    (rotateValidate true [2, 1, 2, 2] true [3] false false = some .valueError ↔
      ((([2, 1, 2, 2] : List Nat).length ≠ 3 ∧ ([2, 1, 2, 2] : List Nat).length ≠ 4) ∨
       (([2, 1, 2, 2] : List Nat).length = 3 ∧ ([3] : List Nat).length ≠ 1) ∨
       (([2, 1, 2, 2] : List Nat).length = 4 ∧
         ([2, 1, 2, 2] : List Nat).headI ≠ ([3] : List Nat).headI))) ∧
    (¬ ((([2, 1, 2, 2] : List Nat).length ≠ 3 ∧ ([2, 1, 2, 2] : List Nat).length ≠ 4) ∨
        (([2, 1, 2, 2] : List Nat).length = 3 ∧ ([3] : List Nat).length ≠ 1) ∨
        (([2, 1, 2, 2] : List Nat).length = 4 ∧
          ([2, 1, 2, 2] : List Nat).headI ≠ ([3] : List Nat).headI)) →
      rotateValidate true [2, 1, 2, 2] true [3] false false = none) :=
  rotate_validation_shape_spec [2, 1, 2, 2] [3] false false (by decide)

/-- Claim C6, counterexample: an unbatched (rank-3) tensor with a rank-1
angle of TWO elements — not the 1-element batch the claim demands —
passes rotate's validation with no shape error at all. -/
theorem rotate_unbatched_angle_length_unchecked :
    rotateValidate true [1, 1, 1] true [2] false true = none := by decide

/-- Claim C7: affine preserves the shape of rank-3 and rank-4 tensors
and invokes the warp primitive with output size equal to the input
spatial size. -/
theorem affine_shape_spec (s : List Nat) (h : s.length = 3 ∨ s.length = 4) :
    affine_shape s = s ∧ affine_dsize s = spatial_size s := by
  rcases s with _ | ⟨a, _ | ⟨b, _ | ⟨c, _ | ⟨d, _ | ⟨e, t⟩⟩⟩⟩⟩
  · simp at h
  · simp at h
  · simp at h
  · exact ⟨rfl, rfl⟩
  · exact ⟨rfl, rfl⟩
  · simp at h

/-- Witness for C7: a rank-3 shape is preserved. -/
theorem affine_shape_spec_witness :
    affine_shape [1, 2, 3] = [1, 2, 3] ∧
    affine_dsize [1, 2, 3] = spatial_size [1, 2, 3] :=
  affine_shape_spec [1, 2, 3] (Or.inl rfl)

/-- Claim C8: every wrapper's `affine()` returns the top-left 2x3
submatrices once the matrix is generated (always, for the deterministic
wrappers) and fails with the assertion precondition error when it is
not; both random wrappers come out of their constructors with no
generated matrix. -/
theorem wrapper_affine_spec :
    (∀ t, (TranslationMatrix.init t).affine =
        .ok ((translation_matrix t).map Mat3.topLeft23)) ∧
    (∀ entry a c st, RotationMatrix.init entry a c = .ok st →
        ∃ ms, st.matrix = some ms ∧ st.affine = .ok (ms.map Mat3.topLeft23)) ∧
    (∀ d c st, RandomRotationMatrix.init d c = .ok st →
        st.matrix = none ∧ st.affine = .error .assertionError) ∧
    (∀ tr st, RandomTranslationMatrix.init tr = .ok st →
        st.matrix = none ∧ st.affine = .error .assertionError) := by
  refine ⟨fun t => rfl, ?_, ?_, ?_⟩
  · intro entry a c st h
    unfold RotationMatrix.init at h
    cases hr : rotation_matrix entry a c with
    | error e =>
      rw [hr] at h
      exact Except.noConfusion h
    | ok ms =>
      rw [hr] at h
      simp only [Except.map] at h
      injection h with h
      subst h
      exact ⟨ms, rfl, rfl⟩
  · intro d c st h
    unfold RandomRotationMatrix.init at h
    repeat' split at h
    all_goals try exact Except.noConfusion h
    all_goals injection h with h
    all_goals subst h
    all_goals exact ⟨rfl, rfl⟩
  · intro tr st h
    unfold RandomTranslationMatrix.init at h
    repeat' split at h
    all_goals try exact Except.noConfusion h
    all_goals injection h with h
    all_goals subst h
    all_goals exact ⟨rfl, rfl⟩

/-- Witness for C8: a freshly constructed RandomRotationMatrix has no
matrix and its `affine()` hits the precondition assertion. -/
theorem wrapper_affine_spec_witness :
    (⟨⟨[2], [-5, 5]⟩, none, none, none⟩ : RandomRotationMatrix).matrix = none ∧
    (⟨⟨[2], [-5, 5]⟩, none, none, none⟩ : RandomRotationMatrix).affine =
      .error .assertionError :=
  wrapper_affine_spec.2.2.1 ⟨[1], [5]⟩ none ⟨⟨[2], [-5, 5]⟩, none, none, none⟩
    (by norm_num [RandomRotationMatrix.init])

/-- Claim C9: each matrix produced by translation_matrix is the identity
with dx at entry (0,2) and dy at entry (1,2), and maps the homogeneous
point (x, y, 1) to (x + dx, y + dy, 1). -/
theorem translation_matrix_spec (ts : List (ℚ × ℚ)) (b : Nat) (x y : ℚ)
    (h : b < ts.length) (hb : b < (translation_matrix ts).length) :
    (translation_matrix ts).get ⟨b, hb⟩ =
      ⟨1, 0, (ts.get ⟨b, h⟩).1, 0, 1, (ts.get ⟨b, h⟩).2, 0, 0, 1⟩ ∧
    ((translation_matrix ts).get ⟨b, hb⟩).mulVec ⟨x, y, 1⟩ =
      ⟨x + (ts.get ⟨b, h⟩).1, y + (ts.get ⟨b, h⟩).2, 1⟩ := by
  have h1 : (translation_matrix ts).get ⟨b, hb⟩ =
      ⟨1, 0, (ts.get ⟨b, h⟩).1, 0, 1, (ts.get ⟨b, h⟩).2, 0, 0, 1⟩ := by
    simp [translation_matrix, identity_matrix]
  refine ⟨h1, ?_⟩
  rw [h1]
  simp [Mat3.mulVec]

/-- Witness for C9: the translation (2, 3) moves (5, 7, 1) to
(5 + 2, 7 + 3, 1). -/
theorem translation_matrix_spec_witness :
    (translation_matrix [((2 : ℚ), 3)]).get ⟨0, by simp [translation_matrix]⟩ =
      ⟨1, 0, 2, 0, 1, 3, 0, 0, 1⟩ ∧
    ((translation_matrix [((2 : ℚ), 3)]).get
        ⟨0, by simp [translation_matrix]⟩).mulVec ⟨5, 7, 1⟩ =
      ⟨5 + 2, 7 + 3, 1⟩ :=
  translation_matrix_spec [((2 : ℚ), 3)] 0 5 7 (by decide)
    (by simp [translation_matrix])

/-- Claim C10: a RandomRotationMatrix constructed with the default
center has center None; every forward call fails on the center assertion
before any sampling, returning the state unchanged, and the stored
matrix stays ungenerated. -/
theorem rrm_default_center_unusable (d : PyTensor) (st : RandomRotationMatrix)
    (h : RandomRotationMatrix.init d none = .ok st)
    (entry : (ℚ × ℚ) → ℚ → ℚ → Mat23) (input : List Mat3) (rng : Nat → ℚ) :
    st.matrix = none ∧
    RandomRotationMatrix.forward entry st input rng = (st, .error .assertionError) := by
  have hc : st.center = none ∧ st.matrix = none := by
    unfold RandomRotationMatrix.init at h
    repeat' split at h
    all_goals try exact Except.noConfusion h
    all_goals injection h with h
    all_goals subst h
    all_goals exact ⟨rfl, rfl⟩
  refine ⟨hc.2, ?_⟩
  unfold RandomRotationMatrix.forward
  rw [hc.1]

/-- Witness for C10: a concrete default-center instance fails its
forward call with the assertion error and keeps matrix = None. -/
theorem rrm_default_center_unusable_witness :
    (⟨⟨[2], [-5, 5]⟩, none, none, none⟩ : RandomRotationMatrix).matrix = none ∧
    RandomRotationMatrix.forward entryC ⟨⟨[2], [-5, 5]⟩, none, none, none⟩ [] rng01 =
      (⟨⟨[2], [-5, 5]⟩, none, none, none⟩, .error .assertionError) :=
  rrm_default_center_unusable ⟨[1], [5]⟩ _ (by norm_num [RandomRotationMatrix.init])
    entryC [] rng01
